import Mathlib

/-!
# Verification of the kanban task-board state-synchronization layer

Shallow embedding of the client-side board logic of the kanban repository:

* `src/frontend_kanban/src/components/kanban/KanbanBoard.tsx` — the task
  collection state, the optimistic drag-and-drop status update with rollback
  on server error (`handleDragEnd`, `handleTaskMove`), fetching
  (`fetchTasks`) and deletion (`handleTaskDelete`);
* `src/frontend_kanban/src/services/api.ts` — the axios response
  interceptor implementing refresh-then-retry on a 401
  (`setupInterceptors`), and the list-response normalization of
  `getProjects` / `getProjectTasks`;
* the backend permission rules, which are not part of the shipped sources;
  they are modelled from the specification (§4.1) where needed.

Async handlers are embedded by splitting them at their `await` point into a
synchronous start phase and a continuation phase that receives the server
outcome; React `setTasks`/`setError` functional updates become explicit
record updates on a `BoardState`.
-/

namespace Kanban

/-- `TaskStatus` from `src/frontend_kanban/src/types/index.ts`:
the string union `'TO_DO' | 'IN_PROGRESS' | 'DONE'`. -/
inductive TaskStatus where
  | TO_DO
  | IN_PROGRESS
  | DONE
deriving DecidableEq, Repr

/-- `TaskPriority`: the string union `'LOW' | 'MEDIUM' | 'HIGH'`. -/
inductive TaskPriority where
  | LOW
  | MEDIUM
  | HIGH
deriving DecidableEq, Repr

/-- The `Task` interface fields that the board logic reads or writes
(`id`, `title`, `description`, `project`, `status`, `priority`,
`assigned_to`, `due_date`, `created_at`). -/
structure Task where
  id : Nat
  title : String
  description : String
  project : Nat
  status : TaskStatus
  priority : TaskPriority
  assigned_to : Option Nat
  due_date : Option String
  created_at : String
deriving DecidableEq, Repr

/-- The component state of `KanbanBoard` that the claims are about:
`tasks`, `error`, `activeTask` and `loading` `useState` cells. -/
structure BoardState where
  tasks : List Task
  error : String
  activeTask : Option Task
  loading : Bool
deriving DecidableEq, Repr

/-- Outcome of an awaited server call (`apiClient.updateTask` /
`deleteTask` resolving or rejecting). -/
inductive ServerResult where
  | ok
  | fail
deriving DecidableEq, Repr

/-- Error message set by both drag handlers on a failed status update. -/
def updateTaskErrMsg : String := "Erreur lors de la mise à jour de la tâche"

/-- Error message set by `handleTaskDelete` on a failed delete. -/
def deleteTaskErrMsg : String := "Erreur lors de la suppression de la tâche"

/-- Error message set by `fetchTasks` on a failed fetch. -/
def fetchTasksErrMsg : String := "Erreur lors du chargement des tâches"

/-- The `setTasks(prev => prev.map(t => t.id === taskId ? { ...t, status:
newStatus } : t))` updater used by both the optimistic update and the
rollback in `handleDragEnd` and `handleTaskMove`. -/
def applyOptimistic (taskId : Nat) (newStatus : TaskStatus) (ts : List Task) :
    List Task :=
  ts.map (fun t => if t.id = taskId then { t with status := newStatus } else t)

/-- The data held by the closure of an in-flight `updateTask` call: the
dragged task's id, the requested target status (the request payload
`{ status: newStatus }`), and the captured `task.status` used by the
rollback. -/
structure Pending where
  taskId : Nat
  newStatus : TaskStatus
  snapshot : TaskStatus
deriving DecidableEq, Repr

/-- Synchronous prefix of `handleDragEnd` (KanbanBoard.tsx lines 66–84), up
to the `await apiClient.updateTask`: clear `activeTask`, return unchanged if
there is no drop target (`!over`), look the task up, return unchanged if it
is absent or already has the target status, otherwise apply the optimistic
update and record the in-flight call. -/
def dragEndStart (over : Option TaskStatus) (activeId : Nat) (s : BoardState) :
    BoardState × Option Pending :=
  let s := { s with activeTask := none }
  match over with
  | none => (s, none)
  | some newStatus =>
    match s.tasks.find? (fun t => t.id = activeId) with
    | none => (s, none)
    | some task =>
      if task.status = newStatus then (s, none)
      else
        ({ s with tasks := applyOptimistic activeId newStatus s.tasks },
         some ⟨activeId, newStatus, task.status⟩)

/-- Continuation of `handleDragEnd` (lines 85–97) once the awaited
`updateTask` call settles: on success nothing further happens; on failure
the rollback maps the task back to the captured `task.status` and sets the
error message. -/
def dragEndFinish (p : Pending) (result : ServerResult) (s : BoardState) :
    BoardState :=
  match result with
  | .ok => s
  | .fail =>
    { s with tasks := applyOptimistic p.taskId p.snapshot s.tasks,
             error := updateTaskErrMsg }

/-- `handleDragEnd` run to completion with a single in-flight call: the
start phase followed, when a server call was issued, by the continuation
applied to the server outcome. The second component reports the
`updateTask` call that was issued, if any. -/
def handleDragEnd (over : Option TaskStatus) (activeId : Nat)
    (result : ServerResult) (s : BoardState) : BoardState × Option Pending :=
  match dragEndStart over activeId s with
  | (s1, none) => (s1, none)
  | (s1, some p) => (dragEndFinish p result s1, some p)

/-- Synchronous prefix of `handleTaskMove` (KanbanBoard.tsx lines 131–144):
identical lookup, no-op check and optimistic update (the
`Array.isArray(tasks)` guard always holds for a list). It does not touch
`activeTask`. -/
def taskMoveStart (taskId : Nat) (newStatus : TaskStatus) (s : BoardState) :
    BoardState × Option Pending :=
  match s.tasks.find? (fun t => t.id = taskId) with
  | none => (s, none)
  | some task =>
    if task.status = newStatus then (s, none)
    else
      ({ s with tasks := applyOptimistic taskId newStatus s.tasks },
       some ⟨taskId, newStatus, task.status⟩)

/-- Continuation of `handleTaskMove` (lines 145–154): same rollback and
error message as `dragEndFinish`. -/
def taskMoveFinish (p : Pending) (result : ServerResult) (s : BoardState) :
    BoardState :=
  match result with
  | .ok => s
  | .fail =>
    { s with tasks := applyOptimistic p.taskId p.snapshot s.tasks,
             error := updateTaskErrMsg }

/-- `handleTaskMove` run to completion with a single in-flight call. -/
def handleTaskMove (taskId : Nat) (newStatus : TaskStatus)
    (result : ServerResult) (s : BoardState) : BoardState × Option Pending :=
  match taskMoveStart taskId newStatus s with
  | (s1, none) => (s1, none)
  | (s1, some p) => (taskMoveFinish p result s1, some p)

/-- `handleTaskDelete` (KanbanBoard.tsx lines 117–129): nothing happens
without the confirmation dialog; otherwise the delete call is awaited and
only on success is the task filtered out of the collection; on failure the
collection is left as it is and the error message is set. The boolean
result reports whether `deleteTask` was called. -/
def handleTaskDelete (taskId : Nat) (confirmed : Bool)
    (result : ServerResult) (s : BoardState) : BoardState × Bool :=
  if !confirmed then (s, false)
  else
    match result with
    | .ok => ({ s with tasks := s.tasks.filter (fun t => ¬ t.id = taskId) }, true)
    | .fail => ({ s with error := deleteTaskErrMsg }, true)

/-- `fetchTasks` (KanbanBoard.tsx lines 33–58), taking the settled outcome
of `apiClient.getProjectTasks` (which has type `Promise<Task[]>`; since the
resolved value is always an array, the handler's `Array.isArray` branch is
the live one and its `results`/`data` re-checks are dead): on success the
collection is replaced wholesale; on failure the error message is set and
the collection is reset to `[]`; `loading` is cleared in the `finally`. -/
def fetchTasks (resp : Except Unit (List Task)) (s : BoardState) : BoardState :=
  let s1 := { s with loading := true, error := "" }
  match resp with
  | .ok tasksData => { s1 with tasks := tasksData, loading := false }
  | .error _ =>
    { s1 with error := fetchTasksErrMsg, tasks := [], loading := false }

/-! ## API client: list-response normalization (`api.ts`, `getProjects`
lines 118–132 and `getProjectTasks` lines 218–232) -/

/-- JSON values as delivered in `response.data` by the HTTP layer. -/
inductive Json where
  | null
  | bool (b : Bool)
  | num (n : Int)
  | str (s : String)
  | arr (elems : List Json)
  | obj (fields : List (String × Json))

/-- Property access `fields.key` on a JSON object's field list. -/
def lookupField (fields : List (String × Json)) (key : String) : Option Json :=
  (fields.find? (fun p => p.1 = key)).map Prod.snd

/-- The response-shape normalization of `getProjects` (api.ts lines
122–131) under JavaScript semantics. An array is returned as is
(`Array.isArray`). An object is truthy, so `'results' in response.data &&
Array.isArray(response.data.results)` selects an array-valued `results`
field, then the same for `data`, and otherwise the warn-and-return-empty
branch runs. A falsy body (`null`, `false`, `0`, `""`) short-circuits both
envelope conditions and also reaches the empty branch. A truthy primitive
body (non-zero number, non-empty string, `true`) makes the `'results' in …`
test throw a `TypeError` (the `in` operator requires an object), so the
call rejects instead of returning a list — modelled as `Except.error`. -/
def getProjectsNorm (data : Json) : Except Unit (List Json) :=
  match data with
  | .arr l => .ok l
  | .obj fs =>
    match lookupField fs "results" with
    | some (.arr l) => .ok l
    | _ =>
      match lookupField fs "data" with
      | some (.arr l) => .ok l
      | _ => .ok []
  | .null => .ok []
  | .bool b => if b then .error () else .ok []
  | .num n => if n = 0 then .ok [] else .error ()
  | .str s => if s = "" then .ok [] else .error ()

/-- The response-shape normalization of `getProjectTasks` (api.ts lines
222–231): same branches as `getProjectsNorm`. -/
def getProjectTasksNorm (data : Json) : Except Unit (List Json) :=
  match data with
  | .arr l => .ok l
  | .obj fs =>
    match lookupField fs "results" with
    | some (.arr l) => .ok l
    | _ =>
      match lookupField fs "data" with
      | some (.arr l) => .ok l
      | _ => .ok []
  | .null => .ok []
  | .bool b => if b then .error () else .ok []
  | .num n => if n = 0 then .ok [] else .error ()
  | .str s => if s = "" then .ok [] else .error ()

/-! ## Backend permission model -/

/-- Decision of the Permission Evaluator. -/
inductive Decision where
  | ALLOW
  | DENY
deriving DecidableEq, Repr

/-- The acting user, as the permission rules see it: identity plus the
`is_staff` / `is_superuser` flags. -/
structure Actor where
  id : Nat
  is_staff : Bool
  is_superuser : Bool
deriving DecidableEq, Repr

/-- A project as the permission rules see it: its owner and its members. -/
structure ProjectResource where
  id : Nat
  owner : Nat
  members : List Nat
deriving DecidableEq, Repr

/-- Project-level operations. -/
inductive ProjectOp where
  | read
  | update
  | delete
deriving DecidableEq, Repr

/-- Task CRUD operations within a project. -/
inductive TaskOp where
  | create
  | read
  | update
  | delete
deriving DecidableEq, Repr

/-- Modelled from the spec: the backend Permission Evaluator is not among
the shipped sources (only the frontend is under src/). Spec §4.1, rules 1
and 2: staff or superuser actors are allowed every operation
(administration bypass); project read is allowed iff the actor is the owner
or a member; project update and delete are restricted to the owner only. -/
def projectPermission (a : Actor) (p : ProjectResource) (op : ProjectOp) :
    Decision :=
  if a.is_superuser || a.is_staff then Decision.ALLOW
  else
    match op with
    | .read =>
      if a.id = p.owner ∨ a.id ∈ p.members then Decision.ALLOW
      else Decision.DENY
    | .update => if a.id = p.owner then Decision.ALLOW else Decision.DENY
    | .delete => if a.id = p.owner then Decision.ALLOW else Decision.DENY

/-- Modelled from the spec: §4.1, rules 1 and 3 — task create/read/update/
delete is allowed iff the actor is staff or superuser, or is the owner or a
member of the task's project; there is no further restriction tied to the
assignee. -/
def taskPermission (a : Actor) (p : ProjectResource) (_op : TaskOp) :
    Decision :=
  if a.is_superuser || a.is_staff then Decision.ALLOW
  else if a.id = p.owner ∨ a.id ∈ p.members then Decision.ALLOW
  else Decision.DENY

/-! ## API client: response interceptor (`src/frontend_kanban/src/services/api.ts`,
`setupInterceptors`, lines 54–90) -/

/-- The request configuration as far as the interceptor inspects it: the
ad-hoc `_retry` marker set before a refresh-and-retry (absent on a fresh
request, i.e. `false`). -/
structure InterceptedRequest where
  retry : Bool
deriving DecidableEq, Repr

/-- The two credential strings held in `localStorage` under the keys
`access_token` and `refresh_token` (`none` when the key is absent). -/
structure ClientStorage where
  access : Option String
  refresh : Option String
deriving DecidableEq, Repr

/-- What the response error interceptor does with the failed request:
either propagate the rejection (`Promise.reject(error)`) or re-issue the
original request (`return this.client(originalRequest)`) carrying the new
access credential. -/
inductive InterceptAction where
  | reject
  | retryRequest (req : InterceptedRequest) (newAccess : String)
deriving DecidableEq, Repr

/-- Result of one run of the response error interceptor: the action taken,
the storage it leaves behind, and whether it navigated to `/login`. -/
structure InterceptOutcome where
  action : InterceptAction
  storage : ClientStorage
  redirectedToLogin : Bool
deriving DecidableEq, Repr

/-- The response error interceptor of `setupInterceptors` (api.ts lines
59–89), given the HTTP status of the failed response, the current storage
and the outcome of the `POST /auth/refresh/` call (only consulted when it
is actually issued). On a 401 for a not-yet-retried request it marks the
request retried and, if a refresh credential is stored, refreshes: on
refresh success it stores the new access credential and retries the
original request; on refresh failure it removes both credentials and
navigates to `/login`, then rejects. In every other case (including a
missing refresh credential) it rejects with storage untouched. -/
def responseErrorInterceptor (req : InterceptedRequest) (status : Nat)
    (st : ClientStorage) (refreshResp : Except Unit String) :
    InterceptOutcome :=
  if status = 401 ∧ req.retry = false then
    match st.refresh with
    | some _ =>
      match refreshResp with
      | .ok access =>
        { action := .retryRequest ⟨true⟩ access,
          storage := { st with access := some access },
          redirectedToLogin := false }
      | .error _ =>
        { action := .reject, storage := ⟨none, none⟩,
          redirectedToLogin := true }
    | none => { action := .reject, storage := st, redirectedToLogin := false }
  else { action := .reject, storage := st, redirectedToLogin := false }

/-- Lifetime of one request: each attempt gets the server's response
(`none` = success, `some status` = an error with that HTTP status); on an
error the interceptor runs, and only a `retryRequest` action re-issues the
request. Counts how many times the request is retried. The `fuel` bounds
the unfolding; the theorems hold for every fuel. -/
def retryCount (respond : Nat → Option Nat)
    (refreshAt : Nat → Except Unit String) :
    Nat → InterceptedRequest → ClientStorage → Nat → Nat
  | 0, _, _, _ => 0
  | fuel + 1, req, st, attempt =>
    match respond attempt with
    | none => 0
    | some status =>
      match (responseErrorInterceptor req status st
          (refreshAt attempt)).action with
      | .retryRequest r _ =>
        1 + retryCount respond refreshAt fuel r
              (responseErrorInterceptor req status st
                (refreshAt attempt)).storage (attempt + 1)
      | .reject => 0

/-! ## Sample data -/

/-- Sample task used to instantiate the theorems on concrete data. -/
def sampleTask1 : Task :=
  { id := 1, title := "Tache A", description := "premiere tache", project := 7,
    status := TaskStatus.TO_DO, priority := TaskPriority.MEDIUM,
    assigned_to := some 3, due_date := some "2024-06-01",
    created_at := "2024-01-01" }

/-- Second sample task, with a different id and status. -/
def sampleTask2 : Task :=
  { id := 2, title := "Tache B", description := "seconde tache", project := 7,
    status := TaskStatus.IN_PROGRESS, priority := TaskPriority.HIGH,
    assigned_to := none, due_date := none, created_at := "2024-01-02" }

/-- Sample board holding the two sample tasks. -/
def sampleBoard : BoardState :=
  { tasks := [sampleTask1, sampleTask2], error := "", activeTask := none,
    loading := false }

/-! ## Basic lemmas about the optimistic updater -/

theorem setStatus_self (t : Task) : ({ t with status := t.status } : Task) = t := by
  cases t; rfl

/-- Re-applying a status update for the same task id supersedes the earlier
one: the updater only ever touches the `status` field. -/
theorem applyOptimistic_applyOptimistic (taskId : Nat) (s1 s2 : TaskStatus)
    (ts : List Task) :
    applyOptimistic taskId s2 (applyOptimistic taskId s1 ts) =
      applyOptimistic taskId s2 ts := by
  unfold applyOptimistic
  rw [List.map_map]
  apply List.map_congr_left
  intro t _
  by_cases h : t.id = taskId <;> simp [h]

/-- Looking the moved task up after an optimistic update finds the same task
with only its status replaced. -/
theorem find?_applyOptimistic (taskId : Nat) (st : TaskStatus) (ts : List Task)
    (T : Task) (h : ts.find? (fun t => t.id = taskId) = some T) :
    (applyOptimistic taskId st ts).find? (fun t => t.id = taskId) =
      some { T with status := st } := by
  unfold applyOptimistic
  rw [List.find?_map]
  have hpf : ((fun t : Task => decide (t.id = taskId)) ∘
      (fun t : Task => if t.id = taskId then { t with status := st } else t)) =
      (fun t : Task => decide (t.id = taskId)) := by
    funext t
    by_cases ht : t.id = taskId <;> simp [ht]
  rw [hpf, h]
  have hT : T.id = taskId := by
    have := List.find?_some h
    simpa using this
  simp [hT]

/-- Reduction of the start phase of a drag when the task is present and the
target status differs: the optimistic update is applied and the in-flight
call captures the pre-drag status. -/
theorem dragEndStart_eq (s : BoardState) (taskId : Nat) (T : Task)
    (newStatus : TaskStatus)
    (hfind : s.tasks.find? (fun t => t.id = taskId) = some T)
    (hne : ¬ T.status = newStatus) :
    dragEndStart (some newStatus) taskId s =
      ({ s with
          activeTask := none
          tasks := applyOptimistic taskId newStatus s.tasks },
       some ⟨taskId, newStatus, T.status⟩) := by
  unfold dragEndStart
  simp [hfind, hne]

/-! ## Theorems about the claims -/

/-- C1: dragging a task whose in-memory status is `T.status` to a column
with a different target status and then failing the server update leaves
the task's in-memory status at the snapshot captured when the optimistic
update was applied (the task is found unchanged afterwards), and the
user-visible error message is set. -/
theorem handleDragEnd_rollback_restores_snapshot
    (s : BoardState) (taskId : Nat) (T : Task) (newStatus : TaskStatus)
    (hfind : s.tasks.find? (fun t => t.id = taskId) = some T)
    (hne : ¬ T.status = newStatus) :
    (handleDragEnd (some newStatus) taskId ServerResult.fail s).1.tasks.find?
        (fun t => t.id = taskId) = some T ∧
    (handleDragEnd (some newStatus) taskId ServerResult.fail s).1.error =
      updateTaskErrMsg := by
  unfold handleDragEnd
  rw [dragEndStart_eq s taskId T newStatus hfind hne]
  unfold dragEndFinish
  constructor
  · show (applyOptimistic taskId T.status
        (applyOptimistic taskId newStatus s.tasks)).find?
        (fun t => t.id = taskId) = some T
    rw [applyOptimistic_applyOptimistic,
        find?_applyOptimistic taskId T.status s.tasks T hfind, setStatus_self]
  · rfl

/-- Witness for C1 on the sample board: drag task 1 from TO_DO to DONE,
fail the server call, and the task is back unchanged with the error set. -/
theorem handleDragEnd_rollback_restores_snapshot_witness :
    sampleBoard.tasks.find? (fun t => t.id = 1) = some sampleTask1 ∧
    ¬ sampleTask1.status = TaskStatus.DONE ∧
    ((handleDragEnd (some TaskStatus.DONE) 1 ServerResult.fail
        sampleBoard).1.tasks.find? (fun t => t.id = 1) = some sampleTask1 ∧
     (handleDragEnd (some TaskStatus.DONE) 1 ServerResult.fail
        sampleBoard).1.error = updateTaskErrMsg) :=
  ⟨by decide, by decide,
   handleDragEnd_rollback_restores_snapshot sampleBoard 1 sampleTask1
     TaskStatus.DONE (by decide) (by decide)⟩

/-- C2 counterexample: task 1 starts at TO_DO; a first drag to IN_PROGRESS
is pending when a second drag to DONE begins. The second drag's closure
snapshot is the current in-memory status IN_PROGRESS (the first drag's
optimistic value), so when the second drag's server call fails the rollback
leaves the task at IN_PROGRESS — not at the original TO_DO the claim
requires. -/
theorem overlapping_drag_rollback_counterexample :
    sampleBoard.tasks.find? (fun t => t.id = 1) = some sampleTask1 ∧
    sampleTask1.status = TaskStatus.TO_DO ∧
    (dragEndStart (some TaskStatus.DONE) 1
        (dragEndStart (some TaskStatus.IN_PROGRESS) 1 sampleBoard).1).2 =
      some ⟨1, TaskStatus.DONE, TaskStatus.IN_PROGRESS⟩ ∧
    ((dragEndFinish ⟨1, TaskStatus.DONE, TaskStatus.IN_PROGRESS⟩
        ServerResult.fail
        (dragEndStart (some TaskStatus.DONE) 1
          (dragEndStart (some TaskStatus.IN_PROGRESS) 1
            sampleBoard).1).1).tasks.find? (fun t => t.id = 1)).map Task.status =
      some TaskStatus.IN_PROGRESS ∧
    ¬ ((dragEndFinish ⟨1, TaskStatus.DONE, TaskStatus.IN_PROGRESS⟩
        ServerResult.fail
        (dragEndStart (some TaskStatus.DONE) 1
          (dragEndStart (some TaskStatus.IN_PROGRESS) 1
            sampleBoard).1).1).tasks.find? (fun t => t.id = 1)).map Task.status =
      some TaskStatus.TO_DO := by
  decide

/-- C2 amended: a second drag begun while the first is pending overwrites
the pending target status, but its closure snapshot is the first drag's
optimistic value, so its rollback on failure restores that intermediate
value (with the error set), not the original pre-first-drag status. -/
theorem overlapping_drag_second_rollback
    (s : BoardState) (taskId : Nat) (T : Task) (st1 st2 : TaskStatus)
    (hfind : s.tasks.find? (fun t => t.id = taskId) = some T)
    (h1 : ¬ T.status = st1) (h2 : ¬ st1 = st2) :
    (dragEndStart (some st1) taskId s).2 = some ⟨taskId, st1, T.status⟩ ∧
    (dragEndStart (some st2) taskId (dragEndStart (some st1) taskId s).1).2 =
      some ⟨taskId, st2, st1⟩ ∧
    (dragEndFinish ⟨taskId, st2, st1⟩ ServerResult.fail
        (dragEndStart (some st2) taskId
          (dragEndStart (some st1) taskId s).1).1).tasks.find?
        (fun t => t.id = taskId) = some { T with status := st1 } ∧
    (dragEndFinish ⟨taskId, st2, st1⟩ ServerResult.fail
        (dragEndStart (some st2) taskId
          (dragEndStart (some st1) taskId s).1).1).error = updateTaskErrMsg := by
  have hA1 := dragEndStart_eq s taskId T st1 hfind h1
  have hfind1 : (applyOptimistic taskId st1 s.tasks).find?
      (fun t => t.id = taskId) = some { T with status := st1 } :=
    find?_applyOptimistic taskId st1 s.tasks T hfind
  have h2' : ¬ ({ T with status := st1 } : Task).status = st2 := h2
  have hA2 := dragEndStart_eq
    ({ s with
        activeTask := none
        tasks := applyOptimistic taskId st1 s.tasks })
    taskId { T with status := st1 } st2 hfind1 h2'
  refine ⟨?_, ?_, ?_, ?_⟩
  · rw [hA1]
  · rw [hA1, hA2]
  · rw [hA1, hA2]
    show (applyOptimistic taskId st1
        (applyOptimistic taskId st2
          (applyOptimistic taskId st1 s.tasks))).find?
        (fun t => t.id = taskId) = some { T with status := st1 }
    rw [applyOptimistic_applyOptimistic, applyOptimistic_applyOptimistic]
    exact find?_applyOptimistic taskId st1 s.tasks T hfind
  · rw [hA1, hA2]
    rfl

/-- Witness for the amended C2 on the sample board: TO_DO, first drag to
IN_PROGRESS, second drag to DONE, second server call fails, task ends at
IN_PROGRESS with the error set. -/
theorem overlapping_drag_second_rollback_witness :
    sampleBoard.tasks.find? (fun t => t.id = 1) = some sampleTask1 ∧
    ¬ sampleTask1.status = TaskStatus.IN_PROGRESS ∧
    ¬ TaskStatus.IN_PROGRESS = TaskStatus.DONE ∧
    ((dragEndStart (some TaskStatus.IN_PROGRESS) 1 sampleBoard).2 =
        some ⟨1, TaskStatus.IN_PROGRESS, sampleTask1.status⟩ ∧
     (dragEndStart (some TaskStatus.DONE) 1
        (dragEndStart (some TaskStatus.IN_PROGRESS) 1 sampleBoard).1).2 =
        some ⟨1, TaskStatus.DONE, TaskStatus.IN_PROGRESS⟩ ∧
     (dragEndFinish ⟨1, TaskStatus.DONE, TaskStatus.IN_PROGRESS⟩
        ServerResult.fail
        (dragEndStart (some TaskStatus.DONE) 1
          (dragEndStart (some TaskStatus.IN_PROGRESS) 1
            sampleBoard).1).1).tasks.find? (fun t => t.id = 1) =
        some { sampleTask1 with status := TaskStatus.IN_PROGRESS } ∧
     (dragEndFinish ⟨1, TaskStatus.DONE, TaskStatus.IN_PROGRESS⟩
        ServerResult.fail
        (dragEndStart (some TaskStatus.DONE) 1
          (dragEndStart (some TaskStatus.IN_PROGRESS) 1
            sampleBoard).1).1).error = updateTaskErrMsg) :=
  ⟨by decide, by decide, by decide,
   overlapping_drag_second_rollback sampleBoard 1 sampleTask1
     TaskStatus.IN_PROGRESS TaskStatus.DONE (by decide) (by decide) (by decide)⟩

/-- C8: the status-move updater applied to the collection (used by both the
optimistic update and the rollback of `handleDragEnd`/`handleTaskMove`)
preserves the length, leaves every task whose id differs from the dragged
one untouched, and on the dragged task changes only the `status` field —
id, title, description, project, priority, assigned_to, due_date and
created_at are all preserved. -/
theorem applyOptimistic_frame (ts : List Task) (taskId : Nat)
    (st : TaskStatus) :
    (applyOptimistic taskId st ts).length = ts.length ∧
    ∀ (i : Nat) (t u : Task),
      ts[i]? = some t → (applyOptimistic taskId st ts)[i]? = some u →
      (¬ t.id = taskId → u = t) ∧
      (t.id = taskId →
        u.status = st ∧ u.id = t.id ∧ u.title = t.title ∧
        u.description = t.description ∧ u.project = t.project ∧
        u.priority = t.priority ∧ u.assigned_to = t.assigned_to ∧
        u.due_date = t.due_date ∧ u.created_at = t.created_at) := by
  constructor
  · exact List.length_map ts _
  · intro i t u ht hu
    unfold applyOptimistic at hu
    rw [List.getElem?_map, ht] at hu
    simp only [Option.map_some', Option.some.injEq] at hu
    by_cases h : t.id = taskId
    · rw [if_pos h] at hu
      subst hu
      simp [h]
    · rw [if_neg h] at hu
      subst hu
      simp [h]

/-- Witness for C8 on the sample tasks: move task 1 to DONE; task 2 (other
id) is untouched at its position, and task 1 keeps every field but status. -/
theorem applyOptimistic_frame_witness :
    ([sampleTask1, sampleTask2][1]? = some sampleTask2 ∧
     (applyOptimistic 1 TaskStatus.DONE [sampleTask1, sampleTask2])[1]? =
       some sampleTask2 ∧
     ¬ sampleTask2.id = 1) ∧
    ([sampleTask1, sampleTask2][0]? = some sampleTask1 ∧
     (applyOptimistic 1 TaskStatus.DONE [sampleTask1, sampleTask2])[0]? =
       some { sampleTask1 with status := TaskStatus.DONE } ∧
     sampleTask1.id = 1) ∧
    sampleTask2 = sampleTask2 ∧
    (({ sampleTask1 with status := TaskStatus.DONE } : Task).status =
        TaskStatus.DONE ∧
     ({ sampleTask1 with status := TaskStatus.DONE } : Task).id =
        sampleTask1.id ∧
     ({ sampleTask1 with status := TaskStatus.DONE } : Task).title =
        sampleTask1.title ∧
     ({ sampleTask1 with status := TaskStatus.DONE } : Task).description =
        sampleTask1.description ∧
     ({ sampleTask1 with status := TaskStatus.DONE } : Task).project =
        sampleTask1.project ∧
     ({ sampleTask1 with status := TaskStatus.DONE } : Task).priority =
        sampleTask1.priority ∧
     ({ sampleTask1 with status := TaskStatus.DONE } : Task).assigned_to =
        sampleTask1.assigned_to ∧
     ({ sampleTask1 with status := TaskStatus.DONE } : Task).due_date =
        sampleTask1.due_date ∧
     ({ sampleTask1 with status := TaskStatus.DONE } : Task).created_at =
        sampleTask1.created_at) :=
  ⟨⟨by decide, by decide, by decide⟩,
   ⟨by decide, by decide, by decide⟩,
   ((applyOptimistic_frame [sampleTask1, sampleTask2] 1 TaskStatus.DONE).2
      1 sampleTask2 sampleTask2 (by decide) (by decide)).1 (by decide),
   ((applyOptimistic_frame [sampleTask1, sampleTask2] 1 TaskStatus.DONE).2
      0 sampleTask1 { sampleTask1 with status := TaskStatus.DONE }
      (by decide) (by decide)).2 (by decide)⟩

/-- C9: task deletion is not optimistic. With the confirmation given, a
failed server delete leaves the collection exactly as it was (the task is
still present) and sets the error; a successful delete removes precisely the
tasks with the deleted id; without the confirmation nothing happens and no
server call is made. -/
theorem handleTaskDelete_read_after_write (s : BoardState) (taskId : Nat) :
    ((handleTaskDelete taskId true ServerResult.fail s).1.tasks = s.tasks ∧
     (handleTaskDelete taskId true ServerResult.fail s).1.error =
       deleteTaskErrMsg) ∧
    (∀ t, t ∈ (handleTaskDelete taskId true ServerResult.ok s).1.tasks ↔
        (t ∈ s.tasks ∧ ¬ t.id = taskId)) ∧
    (∀ r, handleTaskDelete taskId false r s = (s, false)) := by
  refine ⟨⟨rfl, rfl⟩, ?_, ?_⟩
  · intro t
    show t ∈ s.tasks.filter (fun t => ¬ t.id = taskId) ↔ _
    rw [List.mem_filter]
    simp
  · intro r
    rfl

/-- Witness for C9 on the sample board: a failed delete of task 1 keeps the
collection, a successful one removes task 1 but keeps task 2. -/
theorem handleTaskDelete_read_after_write_witness :
    ((handleTaskDelete 1 true ServerResult.fail sampleBoard).1.tasks =
        sampleBoard.tasks ∧
     (handleTaskDelete 1 true ServerResult.fail sampleBoard).1.error =
        deleteTaskErrMsg) ∧
    ¬ sampleTask1 ∈ (handleTaskDelete 1 true ServerResult.ok
        sampleBoard).1.tasks ∧
    sampleTask2 ∈ (handleTaskDelete 1 true ServerResult.ok
        sampleBoard).1.tasks ∧
    handleTaskDelete 1 false ServerResult.fail sampleBoard =
      (sampleBoard, false) :=
  ⟨(handleTaskDelete_read_after_write sampleBoard 1).1,
   fun hmem =>
     (by decide :
       ¬ (sampleTask1 ∈ sampleBoard.tasks ∧ ¬ sampleTask1.id = 1))
       (((handleTaskDelete_read_after_write sampleBoard 1).2.1
           sampleTask1).mp hmem),
   ((handleTaskDelete_read_after_write sampleBoard 1).2.1 sampleTask2).mpr
     (by decide),
   (handleTaskDelete_read_after_write sampleBoard 1).2.2 ServerResult.fail⟩

/-- C10: for every task id, target status and server outcome, the two drag
code paths `handleDragEnd` (with a drop target) and `handleTaskMove` agree
on the resulting task collection, on the resulting error message, and on
the `updateTask` call issued (including its no-op cases). -/
theorem dragEnd_taskMove_equivalent (taskId : Nat) (newStatus : TaskStatus)
    (result : ServerResult) (s : BoardState) :
    (handleDragEnd (some newStatus) taskId result s).1.tasks =
      (handleTaskMove taskId newStatus result s).1.tasks ∧
    (handleDragEnd (some newStatus) taskId result s).1.error =
      (handleTaskMove taskId newStatus result s).1.error ∧
    (handleDragEnd (some newStatus) taskId result s).2 =
      (handleTaskMove taskId newStatus result s).2 := by
  unfold handleDragEnd handleTaskMove dragEndStart taskMoveStart
  cases hf : s.tasks.find? (fun t => t.id = taskId) with
  | none => simp [hf, dragEndFinish, taskMoveFinish]
  | some T =>
    by_cases hst : T.status = newStatus
    · simp [hf, hst, dragEndFinish, taskMoveFinish]
    · cases result <;> simp [hf, hst, dragEndFinish, taskMoveFinish]

/-! ## Theorems about the response interceptor -/

/-- The interceptor never retries a request that already carries the
`_retry` marker, whatever the status, storage and refresh outcome. -/
theorem interceptor_marked_rejects (status : Nat) (st : ClientStorage)
    (rr : Except Unit String) :
    (responseErrorInterceptor ⟨true⟩ status st rr).action =
      InterceptAction.reject := by
  simp [responseErrorInterceptor]

/-- Whenever the interceptor does retry, the re-issued request carries the
`_retry` marker. -/
theorem interceptor_retry_marked (req : InterceptedRequest) (status : Nat)
    (st : ClientStorage) (rr : Except Unit String) (r : InterceptedRequest)
    (a : String)
    (h : (responseErrorInterceptor req status st rr).action =
      InterceptAction.retryRequest r a) :
    r = ⟨true⟩ := by
  unfold responseErrorInterceptor at h
  by_cases hc : status = 401 ∧ req.retry = false
  · rw [if_pos hc] at h
    cases hrf : st.refresh with
    | none => rw [hrf] at h; cases h
    | some tok =>
      rw [hrf] at h
      cases rr with
      | ok acc => cases h; rfl
      | error e => cases h
  · rw [if_neg hc] at h
    cases h

/-- A request lifetime beginning at a marked request performs no retry. -/
theorem retryCount_marked (respond : Nat → Option Nat)
    (refreshAt : Nat → Except Unit String) (fuel : Nat) (st : ClientStorage)
    (attempt : Nat) :
    retryCount respond refreshAt fuel ⟨true⟩ st attempt = 0 := by
  cases fuel with
  | zero => rfl
  | succ fuel =>
    unfold retryCount
    cases respond attempt with
    | none => rfl
    | some status =>
      simp [interceptor_marked_rejects]

/-- C4: over the whole lifetime of a request first issued without the
`_retry` marker, the interceptor retries it at most once, no matter how the
server answers at each attempt or how the refresh calls turn out; in
particular a 401 on the already-retried request is never retried again. -/
theorem request_retried_at_most_once (fuel : Nat)
    (respond : Nat → Option Nat) (refreshAt : Nat → Except Unit String)
    (st : ClientStorage) (attempt : Nat) :
    retryCount respond refreshAt fuel ⟨false⟩ st attempt ≤ 1 ∧
    ∀ (status : Nat) (st2 : ClientStorage) (rr : Except Unit String),
      (responseErrorInterceptor ⟨true⟩ status st2 rr).action =
        InterceptAction.reject := by
  refine ⟨?_, fun status st2 rr => interceptor_marked_rejects status st2 rr⟩
  cases fuel with
  | zero => simp [retryCount]
  | succ fuel =>
    unfold retryCount
    cases respond attempt with
    | none => simp
    | some status =>
      cases ha : (responseErrorInterceptor ⟨false⟩ status st
          (refreshAt attempt)).action with
      | reject => simp [ha]
      | retryRequest r a =>
        have hr : r = ⟨true⟩ :=
          interceptor_retry_marked ⟨false⟩ status st (refreshAt attempt) r a ha
        simp [ha, hr, retryCount_marked]

/-- C5 counterexample: access credential expired (401 on a fresh request)
while the refresh credential is absent from storage. The claim requires
both credential strings to be removed and the session forced to
unauthenticated; the interceptor instead rejects with the access credential
still stored and no navigation to the login page. -/
theorem refresh_missing_keeps_storage_counterexample :
    responseErrorInterceptor ⟨false⟩ 401 ⟨some "jwt-access", none⟩
        (Except.error ()) =
      { action := InterceptAction.reject,
        storage := ⟨some "jwt-access", none⟩,
        redirectedToLogin := false } ∧
    ¬ (responseErrorInterceptor ⟨false⟩ 401 ⟨some "jwt-access", none⟩
        (Except.error ())).storage.access = none ∧
    ¬ (responseErrorInterceptor ⟨false⟩ 401 ⟨some "jwt-access", none⟩
        (Except.error ())).redirectedToLogin = true := by
  decide

/-- C5 amended: on a 401 for a not-yet-retried request, if a refresh
credential is stored and the refresh request itself errors, both stored
credentials are removed and the client navigates to the login page; but if
the refresh credential is absent, the interceptor rejects the original
error with storage left untouched and no navigation. -/
theorem refresh_failure_clears_storage (req : InterceptedRequest)
    (st : ClientStorage) (tok : String) (hr : req.retry = false) :
    (st.refresh = some tok →
      (responseErrorInterceptor req 401 st (Except.error ())).storage =
        ⟨none, none⟩ ∧
      (responseErrorInterceptor req 401 st
        (Except.error ())).redirectedToLogin = true ∧
      (responseErrorInterceptor req 401 st (Except.error ())).action =
        InterceptAction.reject) ∧
    (st.refresh = none →
      ∀ rr, (responseErrorInterceptor req 401 st rr).storage = st ∧
        (responseErrorInterceptor req 401 st rr).redirectedToLogin = false) := by
  constructor
  · intro h
    simp [responseErrorInterceptor, hr, h]
  · intro h rr
    simp [responseErrorInterceptor, hr, h]

/-- Witness for the amended C5: both credentials stored, refresh errors,
storage is cleared and the client is sent to the login page. -/
theorem refresh_failure_clears_storage_witness :
    (⟨false⟩ : InterceptedRequest).retry = false ∧
    (⟨some "jwt-access", some "jwt-refresh"⟩ : ClientStorage).refresh =
      some "jwt-refresh" ∧
    ((responseErrorInterceptor ⟨false⟩ 401
        ⟨some "jwt-access", some "jwt-refresh"⟩ (Except.error ())).storage =
        ⟨none, none⟩ ∧
     (responseErrorInterceptor ⟨false⟩ 401
        ⟨some "jwt-access", some "jwt-refresh"⟩
        (Except.error ())).redirectedToLogin = true ∧
     (responseErrorInterceptor ⟨false⟩ 401
        ⟨some "jwt-access", some "jwt-refresh"⟩ (Except.error ())).action =
        InterceptAction.reject) :=
  ⟨rfl, rfl,
   (refresh_failure_clears_storage ⟨false⟩
      ⟨some "jwt-access", some "jwt-refresh"⟩ "jwt-refresh" (by decide)).1
     (by decide)⟩

/-! ## Theorems about the permission model and the API client -/

/-- C3 (modelled from the spec, the backend sources being absent from the
repository snapshot): project update is allowed exactly for staff,
superusers and the owner; an actor who is a member but not the owner and
has neither flag is denied project update and delete while being allowed
project read and every task CRUD operation in the project. -/
theorem project_update_permission (a : Actor) (p : ProjectResource) :
    (projectPermission a p ProjectOp.update = Decision.ALLOW ↔
      (a.is_staff = true ∨ a.is_superuser = true ∨ a.id = p.owner)) ∧
    (a.id ∈ p.members → ¬ a.id = p.owner → a.is_staff = false →
      a.is_superuser = false →
      projectPermission a p ProjectOp.update = Decision.DENY ∧
      projectPermission a p ProjectOp.delete = Decision.DENY ∧
      projectPermission a p ProjectOp.read = Decision.ALLOW ∧
      ∀ op, taskPermission a p op = Decision.ALLOW) := by
  constructor
  · by_cases h1 : a.is_superuser <;> by_cases h2 : a.is_staff <;>
      by_cases h3 : a.id = p.owner <;>
      simp [projectPermission, h1, h2, h3]
  · intro hm hno hst hsu
    refine ⟨?_, ?_, ?_, fun op => ?_⟩ <;>
      simp [projectPermission, taskPermission, hst, hsu, hno, hm]

/-- Witness for C3: actor 5 is a member (not the owner, no flags) of a
project owned by actor 2: denied update and delete, allowed read and all
task CRUD. -/
theorem project_update_permission_witness :
    (⟨5, false, false⟩ : Actor).id ∈
      (⟨1, 2, [5, 9]⟩ : ProjectResource).members ∧
    ¬ (⟨5, false, false⟩ : Actor).id = (⟨1, 2, [5, 9]⟩ : ProjectResource).owner ∧
    (⟨5, false, false⟩ : Actor).is_staff = false ∧
    (⟨5, false, false⟩ : Actor).is_superuser = false ∧
    (projectPermission ⟨5, false, false⟩ ⟨1, 2, [5, 9]⟩ ProjectOp.update =
        Decision.DENY ∧
     projectPermission ⟨5, false, false⟩ ⟨1, 2, [5, 9]⟩ ProjectOp.delete =
        Decision.DENY ∧
     projectPermission ⟨5, false, false⟩ ⟨1, 2, [5, 9]⟩ ProjectOp.read =
        Decision.ALLOW ∧
     ∀ op, taskPermission ⟨5, false, false⟩ ⟨1, 2, [5, 9]⟩ op =
        Decision.ALLOW) :=
  ⟨by decide, by decide, by decide, by decide,
   (project_update_permission ⟨5, false, false⟩ ⟨1, 2, [5, 9]⟩).2
     (by decide) (by decide) (by decide) (by decide)⟩

/-- C6 counterexample: a list-endpoint body that is the JSON number 5 is
neither an array nor an envelope, so the claim requires the empty list; the
code instead evaluates `5 && 'results' in 5`, and the `in` operator throws
a `TypeError` on a primitive, so the call rejects and no list is returned. -/
theorem normalization_primitive_body_counterexample :
    getProjectsNorm (Json.num 5) = Except.error () ∧
    ¬ getProjectsNorm (Json.num 5) = Except.ok ([] : List Json) ∧
    getProjectTasksNorm (Json.num 5) = Except.error () ∧
    ¬ getProjectTasksNorm (Json.num 5) = Except.ok ([] : List Json) := by
  refine ⟨rfl, ?_, rfl, ?_⟩
  · intro h
    rw [show getProjectsNorm (Json.num 5) = Except.error () from rfl] at h
    exact Except.noConfusion h
  · intro h
    rw [show getProjectTasksNorm (Json.num 5) = Except.error () from rfl] at h
    exact Except.noConfusion h

/-- C6 amended: both normalizations return the body itself for an array
body, `results` when it is an array-valued field, otherwise `data` when it
is an array-valued field, and the empty list for every other object body
and for every falsy body (`null`, `false`, `0`, `""`); a truthy primitive
body (`true`, a non-zero number, a non-empty string) instead makes the
normalization throw, and the two functions agree on every body. -/
theorem normalization_shapes :
    (∀ l, getProjectsNorm (Json.arr l) = Except.ok l) ∧
    (∀ fs l, lookupField fs "results" = some (Json.arr l) →
      getProjectsNorm (Json.obj fs) = Except.ok l) ∧
    (∀ fs l, (∀ l2, ¬ lookupField fs "results" = some (Json.arr l2)) →
      lookupField fs "data" = some (Json.arr l) →
      getProjectsNorm (Json.obj fs) = Except.ok l) ∧
    (∀ fs, (∀ l2, ¬ lookupField fs "results" = some (Json.arr l2)) →
      (∀ l2, ¬ lookupField fs "data" = some (Json.arr l2)) →
      getProjectsNorm (Json.obj fs) = Except.ok ([] : List Json)) ∧
    (getProjectsNorm Json.null = Except.ok ([] : List Json) ∧
     getProjectsNorm (Json.bool false) = Except.ok ([] : List Json) ∧
     getProjectsNorm (Json.num 0) = Except.ok ([] : List Json) ∧
     getProjectsNorm (Json.str "") = Except.ok ([] : List Json)) ∧
    (getProjectsNorm (Json.bool true) = Except.error () ∧
     (∀ n : Int, ¬ n = 0 → getProjectsNorm (Json.num n) = Except.error ()) ∧
     (∀ s : String, ¬ s = "" → getProjectsNorm (Json.str s) = Except.error ())) ∧
    (∀ j, getProjectTasksNorm j = getProjectsNorm j) := by
  refine ⟨fun l => rfl, ?_, ?_, ?_, ⟨rfl, rfl, rfl, rfl⟩,
    ⟨rfl, ?_, ?_⟩, ?_⟩
  · intro fs l h
    simp [getProjectsNorm, h]
  · intro fs l hnr hd
    cases hres : lookupField fs "results" with
    | none => simp [getProjectsNorm, hres, hd]
    | some j =>
      cases j with
      | arr l2 => exact absurd hres (hnr l2)
      | null => simp [getProjectsNorm, hres, hd]
      | bool b => simp [getProjectsNorm, hres, hd]
      | num n => simp [getProjectsNorm, hres, hd]
      | str s => simp [getProjectsNorm, hres, hd]
      | obj fs2 => simp [getProjectsNorm, hres, hd]
  · intro fs hnr hnd
    have hd : ∀ j2, lookupField fs "data" = some j2 →
        getProjectsNorm (Json.obj fs) = Except.ok ([] : List Json) := by
      intro j2 hj2
      cases j2 with
      | arr l2 => exact absurd hj2 (hnd l2)
      | null => cases hres : lookupField fs "results" with
        | none => simp [getProjectsNorm, hres, hj2]
        | some j => cases j with
          | arr l2 => exact absurd hres (hnr l2)
          | null => simp [getProjectsNorm, hres, hj2]
          | bool b => simp [getProjectsNorm, hres, hj2]
          | num n => simp [getProjectsNorm, hres, hj2]
          | str s => simp [getProjectsNorm, hres, hj2]
          | obj fs2 => simp [getProjectsNorm, hres, hj2]
      | bool b => cases hres : lookupField fs "results" with
        | none => simp [getProjectsNorm, hres, hj2]
        | some j => cases j with
          | arr l2 => exact absurd hres (hnr l2)
          | null => simp [getProjectsNorm, hres, hj2]
          | bool b2 => simp [getProjectsNorm, hres, hj2]
          | num n => simp [getProjectsNorm, hres, hj2]
          | str s => simp [getProjectsNorm, hres, hj2]
          | obj fs2 => simp [getProjectsNorm, hres, hj2]
      | num n => cases hres : lookupField fs "results" with
        | none => simp [getProjectsNorm, hres, hj2]
        | some j => cases j with
          | arr l2 => exact absurd hres (hnr l2)
          | null => simp [getProjectsNorm, hres, hj2]
          | bool b => simp [getProjectsNorm, hres, hj2]
          | num n2 => simp [getProjectsNorm, hres, hj2]
          | str s => simp [getProjectsNorm, hres, hj2]
          | obj fs2 => simp [getProjectsNorm, hres, hj2]
      | str s => cases hres : lookupField fs "results" with
        | none => simp [getProjectsNorm, hres, hj2]
        | some j => cases j with
          | arr l2 => exact absurd hres (hnr l2)
          | null => simp [getProjectsNorm, hres, hj2]
          | bool b => simp [getProjectsNorm, hres, hj2]
          | num n => simp [getProjectsNorm, hres, hj2]
          | str s2 => simp [getProjectsNorm, hres, hj2]
          | obj fs2 => simp [getProjectsNorm, hres, hj2]
      | obj fs3 => cases hres : lookupField fs "results" with
        | none => simp [getProjectsNorm, hres, hj2]
        | some j => cases j with
          | arr l2 => exact absurd hres (hnr l2)
          | null => simp [getProjectsNorm, hres, hj2]
          | bool b => simp [getProjectsNorm, hres, hj2]
          | num n => simp [getProjectsNorm, hres, hj2]
          | str s => simp [getProjectsNorm, hres, hj2]
          | obj fs2 => simp [getProjectsNorm, hres, hj2]
    cases hdres : lookupField fs "data" with
    | some j2 => exact hd j2 hdres
    | none =>
      cases hres : lookupField fs "results" with
      | none => simp [getProjectsNorm, hres, hdres]
      | some j => cases j with
        | arr l2 => exact absurd hres (hnr l2)
        | null => simp [getProjectsNorm, hres, hdres]
        | bool b => simp [getProjectsNorm, hres, hdres]
        | num n => simp [getProjectsNorm, hres, hdres]
        | str s => simp [getProjectsNorm, hres, hdres]
        | obj fs2 => simp [getProjectsNorm, hres, hdres]
  · intro n hn
    simp [getProjectsNorm, hn]
  · intro s hs
    simp [getProjectsNorm, hs]
  · intro j
    cases j <;> rfl

/-- Witness for the amended C6: an envelope with an array `results` field
yields that array, and the number 5 makes the normalization throw. -/
theorem normalization_shapes_witness :
    lookupField [("results", Json.arr [Json.num 1])] "results" =
      some (Json.arr [Json.num 1]) ∧
    getProjectsNorm (Json.obj [("results", Json.arr [Json.num 1])]) =
      Except.ok [Json.num 1] ∧
    ¬ (5 : Int) = 0 ∧
    getProjectsNorm (Json.num 5) = Except.error () :=
  ⟨rfl,
   normalization_shapes.2.1 [("results", Json.arr [Json.num 1])]
     [Json.num 1] rfl,
   by decide,
   normalization_shapes.2.2.2.2.2.1.2.1 5 (by decide)⟩

/-- C7: fetching the task collection always replaces it wholesale: a failed
fetch leaves the empty collection (never the stale one) and surfaces a
non-empty, retryable error message, while a successful fetch installs
exactly the fetched list and clears the error. -/
theorem fetchTasks_replaces_collection (s : BoardState) :
    (∀ e : Unit, (fetchTasks (Except.error e) s).tasks = [] ∧
      (fetchTasks (Except.error e) s).error = fetchTasksErrMsg ∧
      ¬ fetchTasksErrMsg = "") ∧
    (∀ l, (fetchTasks (Except.ok l) s).tasks = l ∧
      (fetchTasks (Except.ok l) s).error = "") := by
  exact ⟨fun e => ⟨rfl, rfl, by decide⟩, fun l => ⟨rfl, rfl⟩⟩

end Kanban
